import Mathlib

/-!
# dataviz-api — subscription reconciliation core, shallow embedding

Shallow embedding of the subscription-state logic of the dataviz-api
repository (Vercel serverless handlers over Supabase and Stripe), together
with proofs of the specification claims about it.

Modelling conventions, shared by every definition below:

* Timestamps (ISO 8601 strings and Unix epoch seconds in the source) are
  modelled as integers ordered as the underlying instants; an absent, empty
  or unparseable timestamp is modelled as `Option.none` (the source's
  `parsePeriodEnd` collapses `null`, `""` and `NaN` dates to `null`).
* A JavaScript value that may be `undefined` or `null` is modelled as a
  nested option: the outer layer is presence (`undefined` when absent),
  the inner layer is nullability.  JavaScript string truthiness
  (`if (!x)`) is `jsTruthyStr`: `null`/`undefined`/`""` are falsy.
* The `subscriptions` table is keyed by the unique `user_id`; handlers that
  touch a single user's row act on `Option SubscriptionRow` (that user's
  record, if any).  The batch sweeper acts on the whole table as a list.
* Fallible storage/provider calls are modelled by an explicit outcome
  parameter (`Bool` failure flag or `Except Unit` result) passed to the
  embedded handler; a thrown JavaScript exception is `Except.error`.
* Logging (`console.*`, `logger.*`) has no observable effect on the
  claims and is not modelled.
-/

/-- The closed local status vocabulary (`api/_lib/types.ts`,
`SubscriptionStatus`, mirroring the Supabase `subscription_status` enum). -/
inductive LocalStatus where
  | none
  | active
  | past_due
  | canceled
  | incomplete
  | trialing
deriving DecidableEq, Repr

/-- A row of the `subscriptions` table (`api/_lib/types.ts`,
`SubscriptionRecord`).  `id` is the database-generated primary key. -/
structure SubscriptionRow where
  id : Option String := Option.none
  user_id : String
  stripe_customer_id : Option String := Option.none
  stripe_subscription_id : Option String := Option.none
  plan_id : Option String := Option.none
  status : LocalStatus := LocalStatus.none
  current_period_end : Option Int := Option.none
  cancel_at_period_end : Option Bool := Option.none
  created_at : Int := 0
  updated_at : Int := 0
deriving DecidableEq, Repr

/-- JavaScript truthiness of a `string | null | undefined` value:
`null`, `undefined` and `""` are falsy. -/
def jsTruthyStr : Option String → Bool
  | Option.none => false
  | some s => s != ""

/-- `toIso` (`api/_lib/webhook-helpers.ts`): converts Unix epoch seconds to
an ISO timestamp, returning `null` for `null`/`undefined`/`0` (the source's
`epochSeconds ? ... : null` truthiness test).  In the integer time model the
conversion itself is the identity. -/
def toIso (epochSeconds : Option Int) : Option Int :=
  match epochSeconds with
  | some v => if v != 0 then some v else Option.none
  | Option.none => Option.none

/-- `mapStripeStatus` (`api/_lib/webhook-helpers.ts`): the provider-status
switch, one branch per `case`, `default` giving `none`.  The input is the
provider status string, `Option.none` standing for `null`/`undefined`. -/
def mapStripeStatus (status : Option String) : LocalStatus :=
  if status = some "active" then LocalStatus.active
  else if status = some "trialing" then LocalStatus.trialing
  else if status = some "past_due" then LocalStatus.past_due
  else if status = some "incomplete" then LocalStatus.incomplete
  else if status = some "incomplete_expired" then LocalStatus.canceled
  else if status = some "unpaid" then LocalStatus.past_due
  else if status = some "canceled" then LocalStatus.canceled
  else LocalStatus.none

/-- A row of the `plans` catalog (`api/_lib/types.ts`, `PlanRecord`),
restricted to the columns the core reads. -/
structure PlanRow where
  id : String
  stripe_price_id : String
deriving DecidableEq, Repr

/-- `resolvePlanId` (`api/_lib/webhook-helpers.ts`): `undefined` for a
falsy price id, `undefined` on lookup error, otherwise the `id` of the
catalog row whose `stripe_price_id` matches (`maybeSingle`), `undefined`
when there is none.  `lookupFails` models a transient storage error. -/
def resolvePlanId (catalog : List PlanRow) (priceId : Option String)
    (lookupFails : Bool) : Option String :=
  if !jsTruthyStr priceId then Option.none
  else if lookupFails then Option.none
  else (catalog.find? (fun p => priceId = some p.stripe_price_id)).map (·.id)

/-- The sparse patch accepted by `upsertSubscription`
(`api/_lib/webhook-helpers.ts`, the `params` object).  The outer option is
presence (`undefined` skips the field), the inner option is the
JavaScript `null`.  `planId` is declared `string | undefined` in the
source; the inner option mirrors the runtime `?? "pro_monthly"` guard. -/
structure UpsertParams where
  userId : String
  customerId : Option (Option String) := Option.none
  subscriptionId : Option (Option String) := Option.none
  status : Option LocalStatus := Option.none
  currentPeriodEnd : Option (Option Int) := Option.none
  cancelAtPeriodEnd : Option (Option Bool) := Option.none
  planId : Option (Option String) := Option.none
deriving DecidableEq, Repr

/-- The payload merge of `upsertSubscription`
(`api/_lib/webhook-helpers.ts`): insert when no row exists (database
defaults for unsupplied columns), merge-on-conflict otherwise; only fields
present in the payload are written, and the table's `updated_at` refresh
(the spec's "refreshed on every mutation") sets `updated_at := now`. -/
def applyUpsert (params : UpsertParams) (now : Int)
    (existing : Option SubscriptionRow) : SubscriptionRow :=
  let base : SubscriptionRow :=
    match existing with
    | some r => { r with user_id := params.userId, updated_at := now }
    | Option.none => { user_id := params.userId, created_at := now, updated_at := now }
  let base :=
    match params.customerId with
    | some v => { base with stripe_customer_id := v }
    | Option.none => base
  let base :=
    match params.subscriptionId with
    | some v => { base with stripe_subscription_id := v }
    | Option.none => base
  let base :=
    match params.status with
    | some v => { base with status := v }
    | Option.none => base
  let base :=
    match params.currentPeriodEnd with
    | some v => { base with current_period_end := v }
    | Option.none => base
  let base :=
    match params.cancelAtPeriodEnd with
    | some v => { base with cancel_at_period_end := v }
    | Option.none => base
  match params.planId with
  | some v => { base with plan_id := some (v.getD "pro_monthly") }
  | Option.none => base

/-- `upsertSubscription` (`api/_lib/webhook-helpers.ts`): performs the
atomic upsert keyed on `user_id`; a storage failure is thrown to the
caller (`throw error`), modelled as `Except.error`. -/
def upsertSubscription (params : UpsertParams) (now : Int)
    (db : Option SubscriptionRow) (fails : Bool) :
    Except Unit (Option SubscriptionRow) :=
  if fails then Except.error ()
  else Except.ok (some (applyUpsert params now db))

/-- C4: the status mapper is a total function realising exactly the
mapping table `active→active`, `trialing→trialing`, `past_due→past_due`,
`unpaid→past_due`, `incomplete→incomplete`, `incomplete_expired→canceled`,
`canceled→canceled`, with every other or absent input mapped to `none`;
being a Lean function it is pure and cannot fail. -/
theorem mapStripeStatus_table :
    mapStripeStatus (some "active") = LocalStatus.active ∧
    mapStripeStatus (some "trialing") = LocalStatus.trialing ∧
    mapStripeStatus (some "past_due") = LocalStatus.past_due ∧
    mapStripeStatus (some "unpaid") = LocalStatus.past_due ∧
    mapStripeStatus (some "incomplete") = LocalStatus.incomplete ∧
    mapStripeStatus (some "incomplete_expired") = LocalStatus.canceled ∧
    mapStripeStatus (some "canceled") = LocalStatus.canceled ∧
    mapStripeStatus Option.none = LocalStatus.none ∧
    (∀ s : Option String, s ≠ some "active" → s ≠ some "trialing" →
      s ≠ some "past_due" → s ≠ some "unpaid" → s ≠ some "incomplete" →
      s ≠ some "incomplete_expired" → s ≠ some "canceled" →
      mapStripeStatus s = LocalStatus.none) := by
  refine ⟨rfl, rfl, rfl, rfl, rfl, rfl, rfl, rfl, ?_⟩
  intro s h1 h2 h3 h4 h5 h6 h7
  simp [mapStripeStatus, h1, h2, h3, h4, h5, h6, h7]

/-- Characterisation of the merge path of `applyUpsert` on an existing row:
each supplied field overwrites, each absent field keeps the stored value,
`user_id` is rewritten (with itself) and `updated_at` is refreshed. -/
theorem applyUpsert_some (p : UpsertParams) (now : Int) (r : SubscriptionRow) :
    applyUpsert p now (some r) =
      { id := r.id
        user_id := p.userId
        stripe_customer_id := p.customerId.getD r.stripe_customer_id
        stripe_subscription_id := p.subscriptionId.getD r.stripe_subscription_id
        plan_id := match p.planId with
          | some v => some (v.getD "pro_monthly")
          | Option.none => r.plan_id
        status := p.status.getD r.status
        current_period_end := p.currentPeriodEnd.getD r.current_period_end
        cancel_at_period_end := p.cancelAtPeriodEnd.getD r.cancel_at_period_end
        created_at := r.created_at
        updated_at := now } := by
  obtain ⟨u, c, s, st, cp, ca, pl⟩ := p
  cases c <;> cases s <;> cases st <;> cases cp <;> cases ca <;> cases pl <;> rfl

/-- C3: the field-omission law of the subscription upsert — for an existing
record, every field of the stored row other than `user_id` and `updated_at`
whose patch entry is absent (`undefined`) keeps its stored value, whatever
the rest of the patch supplies. -/
theorem upsertSubscription_field_omission :
    ∀ (p : UpsertParams) (r : SubscriptionRow) (now : Int),
      (p.customerId = Option.none →
        (applyUpsert p now (some r)).stripe_customer_id = r.stripe_customer_id) ∧
      (p.subscriptionId = Option.none →
        (applyUpsert p now (some r)).stripe_subscription_id = r.stripe_subscription_id) ∧
      (p.status = Option.none →
        (applyUpsert p now (some r)).status = r.status) ∧
      (p.currentPeriodEnd = Option.none →
        (applyUpsert p now (some r)).current_period_end = r.current_period_end) ∧
      (p.cancelAtPeriodEnd = Option.none →
        (applyUpsert p now (some r)).cancel_at_period_end = r.cancel_at_period_end) ∧
      (p.planId = Option.none →
        (applyUpsert p now (some r)).plan_id = r.plan_id) ∧
      (applyUpsert p now (some r)).id = r.id ∧
      (applyUpsert p now (some r)).created_at = r.created_at := by
  intro p r now
  refine ⟨fun h => by simp [applyUpsert_some, h], fun h => by simp [applyUpsert_some, h],
    fun h => by simp [applyUpsert_some, h], fun h => by simp [applyUpsert_some, h],
    fun h => by simp [applyUpsert_some, h], fun h => by simp [applyUpsert_some, h],
    by simp [applyUpsert_some], by simp [applyUpsert_some]⟩

/-- Lifts the `string | undefined` result of `resolvePlanId` into the
`planId` patch slot (never the inner `null`). -/
def liftPlanParam (v : Option String) : Option (Option String) :=
  v.map some

/-- C9: when the price reference is null/empty, the catalog lookup fails or
no catalog row matches, `resolvePlanId` is unresolved; an upsert whose
`planId` slot carries the resolver's result then leaves the stored
`plan_id` unchanged, and whenever it does write `plan_id` the written value
is the `id` of a catalog row matched by the event's price reference. -/
theorem resolvePlanId_plan_frame (catalog : List PlanRow) (priceId : Option String)
    (lookupFails : Bool) (p : UpsertParams) (r : SubscriptionRow) (now : Int)
    (hp : p.planId = liftPlanParam (resolvePlanId catalog priceId lookupFails)) :
    ((priceId = Option.none ∨ priceId = some "" ∨ lookupFails = true) →
      resolvePlanId catalog priceId lookupFails = Option.none) ∧
    (resolvePlanId catalog priceId lookupFails = Option.none →
      (applyUpsert p now (some r)).plan_id = r.plan_id) ∧
    (∀ v, resolvePlanId catalog priceId lookupFails = some v →
      (applyUpsert p now (some r)).plan_id = some v ∧
      ∃ pr ∈ catalog, pr.id = v ∧ priceId = some pr.stripe_price_id) := by
  refine ⟨fun h => ?_, fun h => ?_, fun v h => ?_⟩
  · rcases h with h | h | h <;> simp [resolvePlanId, jsTruthyStr, h]
  · have hpl : p.planId = Option.none := by rw [hp, h]; rfl
    simp [applyUpsert_some, hpl]
  · have hpl : p.planId = some (some v) := by rw [hp, h]; rfl
    refine ⟨by simp [applyUpsert_some, hpl], ?_⟩
    unfold resolvePlanId at h
    by_cases h1 : jsTruthyStr priceId
    · by_cases h2 : lookupFails
      · simp [h1, h2] at h
      · simp [h1, h2] at h
        obtain ⟨pr, hfind, hid⟩ := h
        have hmem := List.find?_some hfind
        have hmem2 := List.mem_of_find?_eq_some hfind
        exact ⟨pr, hmem2, hid, of_decide_eq_true hmem⟩
    · simp [h1] at h

/-- C9 witness data check: a price id matching no catalog row resolves to
`undefined` and the subsequent upsert keeps the stored `plan_id`. -/
theorem resolvePlanId_plan_frame_witness :
    (applyUpsert { userId := "u1" } 7
      (some { user_id := "u1", plan_id := some "starter" })).plan_id = some "starter" :=
  (resolvePlanId_plan_frame [⟨"starter", "price_A"⟩] (some "price_X") false
    { userId := "u1" } { user_id := "u1", plan_id := some "starter" } 7 rfl).2.1 rfl

/-- `parsePeriodEnd` (`api/_lib/subscription-expiry.ts`): in the integer
time model a missing, empty or unparseable `current_period_end` is already
`Option.none`, so the parse is the field itself. -/
def parsePeriodEnd (subscription : SubscriptionRow) : Option Int :=
  subscription.current_period_end

/-- `shouldExpireSubscription` (`api/_lib/subscription-expiry.ts`): never
for a `canceled` record, never without a (parseable) period end or with a
period end not yet past, always for an overdue trial, otherwise exactly
when `cancel_at_period_end === true`. -/
def shouldExpireSubscription (subscription : SubscriptionRow) (now : Int) : Bool :=
  if subscription.status = LocalStatus.canceled then false
  else
    match parsePeriodEnd subscription with
    | Option.none => false
    | some periodEnd =>
      if periodEnd ≥ now then false
      else if subscription.status = LocalStatus.trialing then true
      else decide (subscription.cancel_at_period_end = some true)

/-- The row mutation both sweeper modes perform: `status := canceled` with
the `updated_at` refresh. -/
def expireRow (r : SubscriptionRow) (now : Int) : SubscriptionRow :=
  { r with status := LocalStatus.canceled, updated_at := now }

/-- `expireSubscriptionIfNeeded` (`api/_lib/subscription-expiry.ts`): the
lazy sweep run during a `/me` read; no-op (returning `false`) unless the
predicate holds, otherwise an update of the caller's row keyed on
`user_id`, throwing on storage failure. -/
def expireSubscriptionIfNeeded (db : Option SubscriptionRow)
    (subscription : SubscriptionRow) (now : Int) (updateFails : Bool) :
    Except Unit (Option SubscriptionRow × Bool) :=
  if !shouldExpireSubscription subscription now then Except.ok (db, false)
  else if updateFails then Except.error ()
  else Except.ok
    (db.map (fun r => if r.user_id = subscription.user_id then expireRow r now else r), true)

/-- Rows hit by the first bulk update of the cron sweep
(`api/cron-expire-subscriptions.ts`): `cancel_at_period_end = true`,
`current_period_end < now` (SQL `lt`, false on NULL), `status <> canceled`. -/
def cronPeriodEndFilter (r : SubscriptionRow) (now : Int) : Bool :=
  decide (r.cancel_at_period_end = some true) &&
    (match r.current_period_end with
      | some pe => decide (pe < now)
      | Option.none => false) &&
    !(decide (r.status = LocalStatus.canceled))

/-- Rows hit by the second bulk update of the cron sweep: `status =
trialing` with a past `current_period_end`. -/
def cronTrialFilter (r : SubscriptionRow) (now : Int) : Bool :=
  decide (r.status = LocalStatus.trialing) &&
    (match r.current_period_end with
      | some pe => decide (pe < now)
      | Option.none => false)

/-- Rows the cron sweep only counts (`stale_active_count`):
`cancel_at_period_end = false`, past `current_period_end`, not canceled. -/
def cronStaleFilter (r : SubscriptionRow) (now : Int) : Bool :=
  decide (r.cancel_at_period_end = some false) &&
    (match r.current_period_end with
      | some pe => decide (pe < now)
      | Option.none => false) &&
    !(decide (r.status = LocalStatus.canceled))

/-- What the cron handler reports (`api/cron-expire-subscriptions.ts`,
the 200 response body), next to the table it leaves behind. -/
structure CronSweepResult where
  db : List SubscriptionRow
  expired_by_period_end : Nat
  expired_trials : Nat
  stale_active_count : Nat
deriving DecidableEq, Repr

/-- The batch sweep (`api/cron-expire-subscriptions.ts`, `handler`): two
sequential bulk updates setting `status := canceled` (each reporting the
rows it touched), then a read-only count of stale flagged-off rows. -/
def cronExpireSweep (db : List SubscriptionRow) (now : Int) : CronSweepResult :=
  let db1 := db.map (fun r => if cronPeriodEndFilter r now then expireRow r now else r)
  let n1 := (db.filter (fun r => cronPeriodEndFilter r now)).length
  let db2 := db1.map (fun r => if cronTrialFilter r now then expireRow r now else r)
  let n2 := (db1.filter (fun r => cronTrialFilter r now)).length
  let n3 := (db2.filter (fun r => cronStaleFilter r now)).length
  { db := db2, expired_by_period_end := n1, expired_trials := n2,
    stale_active_count := n3 }

/-- The shared expiry predicate is exactly the union of the two bulk-update
filters of the batch sweep. -/
theorem shouldExpire_eq_filters (x : SubscriptionRow) (now : Int) :
    shouldExpireSubscription x now =
      (cronPeriodEndFilter x now || cronTrialFilter x now) := by
  unfold shouldExpireSubscription parsePeriodEnd cronPeriodEndFilter cronTrialFilter
  cases hc : x.current_period_end with
  | none => cases x.status <;> simp
  | some pe =>
    by_cases hlt : pe < now
    · have hge : ¬ pe ≥ now := by omega
      cases x.status <;> rcases hb : x.cancel_at_period_end with _ | b <;>
        simp [hlt, hge, hb]
    · have hge : pe ≥ now := by omega
      cases x.status <;> rcases hb : x.cancel_at_period_end with _ | b <;> simp [hlt, hge, hb]

/-- The two sequential bulk updates of the batch sweep act on each row
exactly as one conditional update guarded by the shared predicate. -/
theorem cron_pointwise (x : SubscriptionRow) (now : Int) :
    (if cronTrialFilter (if cronPeriodEndFilter x now then expireRow x now else x) now
      then expireRow (if cronPeriodEndFilter x now then expireRow x now else x) now
      else (if cronPeriodEndFilter x now then expireRow x now else x)) =
    (if shouldExpireSubscription x now then expireRow x now else x) := by
  by_cases h1 : cronPeriodEndFilter x now
  · have htrial : cronTrialFilter (expireRow x now) now = false := by
      simp [cronTrialFilter, expireRow]
    have hse : shouldExpireSubscription x now = true := by
      rw [shouldExpire_eq_filters, h1, Bool.true_or]
    simp [h1, htrial, hse]
  · by_cases h2 : cronTrialFilter x now <;>
      simp [h1, h2, shouldExpire_eq_filters x now]

/-- C5: both sweeper modes transition a record to `canceled` exactly when
the shared predicate holds — not canceled, period end set and past, and
trialing or flagged `cancel_at_period_end` — and a record past its period
end that is neither trialing nor flagged is left unmutated by both modes
(the batch mode merely counts it). -/
theorem expirySweeper_exact :
    (∀ (r : SubscriptionRow) (now : Int),
      (shouldExpireSubscription r now = true ↔
        (r.status ≠ LocalStatus.canceled ∧
          ∃ pe, r.current_period_end = some pe ∧ pe < now ∧
            (r.status = LocalStatus.trialing ∨ r.cancel_at_period_end = some true))) ∧
      (∀ (db : Option SubscriptionRow) (updateFails : Bool),
        shouldExpireSubscription r now = false →
        expireSubscriptionIfNeeded db r now updateFails = Except.ok (db, false)) ∧
      (shouldExpireSubscription r now = true →
        expireSubscriptionIfNeeded (some r) r now false =
          Except.ok (some (expireRow r now), true))) ∧
    (∀ (db : List SubscriptionRow) (now : Int),
      (cronExpireSweep db now).db =
        db.map (fun x =>
          if shouldExpireSubscription x now then expireRow x now else x)) := by
  constructor
  · intro r now
    refine ⟨?_, ?_, ?_⟩
    · unfold shouldExpireSubscription parsePeriodEnd
      rcases hc : r.current_period_end with _ | pe
      · by_cases hs : r.status = LocalStatus.canceled <;> simp [hs, hc]
      · by_cases hs : r.status = LocalStatus.canceled
        · simp [hs]
        · by_cases hlt : pe ≥ now
          · have hnlt : ¬ pe < now := by omega
            simp [hs, hc, hlt, hnlt]
          · have hplt : pe < now := by omega
            by_cases ht : r.status = LocalStatus.trialing <;>
              simp [hs, hc, hlt, hplt, ht]
    · intro db updateFails h
      simp [expireSubscriptionIfNeeded, h]
    · intro h
      simp [expireSubscriptionIfNeeded, h]
  · intro db now
    simp only [cronExpireSweep, List.map_map]
    congr 1
    funext x
    exact cron_pointwise x now

/-- The identity the auth guard yields (`api/_lib/types.ts`,
`AuthenticatedUser`). -/
structure AuthenticatedUser where
  id : String
  email : String
deriving DecidableEq, Repr

/-- `ACADEMIA_DOMAINS` (`api/_lib/academia.ts`). -/
def ACADEMIA_DOMAINS : List String :=
  ["@fclt.tamabi.ac.jp", "@tamabi.ac.jp", "@tcu.ac.jp"]

/-- JavaScript `String.prototype.endsWith` on whole strings, as a
computable suffix test on the character lists. -/
def jsEndsWith (s post : String) : Bool :=
  post.data.isSuffixOf s.data

/-- `isAcademiaEmail` (`api/_lib/academia.ts`): falsy e-mail is rejected,
otherwise some allow-listed domain must be a suffix. -/
def isAcademiaEmail (email : String) : Bool :=
  if email = "" then false
  else ACADEMIA_DOMAINS.any (fun domain => jsEndsWith email domain)

/-- The shallow-overridden copy the entitlement overlay produces for an
existing record (`api/me.ts`, the spread `{ ...subscription, status:
"active", plan_id: "academia", current_period_end: null }`). -/
def academiaOverride (s : SubscriptionRow) : SubscriptionRow :=
  { s with
    status := LocalStatus.active
    plan_id := some "academia"
    current_period_end := Option.none }

/-- The synthetic in-memory record the overlay fabricates when no record
exists at all (`api/me.ts`); never persisted. -/
def academiaFabricated (userId : String) (now : Int) : SubscriptionRow :=
  { user_id := userId
    status := LocalStatus.active
    plan_id := some "academia"
    current_period_end := Option.none
    created_at := now
    updated_at := now }

/-- The overlay predicate of `api/me.ts`: evaluated against the record as
originally fetched (`subscription`, not `updatedSubscription`). -/
def academiaOverlayPred (subscription : Option SubscriptionRow)
    (user : AuthenticatedUser) : Bool :=
  (match subscription with
    | Option.none => true
    | some s => decide (s.status ≠ LocalStatus.active)) &&
  (user.email != "") && isAcademiaEmail user.email

/-- The `/me` handler (`api/me.ts`), restricted to the subscription part
of its behaviour: fetch the caller's record, run the lazy expiry sweep and
re-read on expiry, then apply the entitlement overlay at response time.
Returns the stored record after the request and the subscription object
serialized in the response; a sweep storage failure propagates to the
outer catch (a 500 response). -/
def meHandler (db : Option SubscriptionRow) (user : AuthenticatedUser)
    (now : Int) (sweepFails : Bool) :
    Except Unit (Option SubscriptionRow × Option SubscriptionRow) :=
  match db with
  | Option.none =>
    let finalSubscription :=
      if academiaOverlayPred Option.none user then
        some (academiaFabricated user.id now)
      else Option.none
    Except.ok (Option.none, finalSubscription)
  | some s =>
    match expireSubscriptionIfNeeded db s now sweepFails with
    | Except.error e => Except.error e
    | Except.ok (db1, wasExpired) =>
      let updatedSubscription := if wasExpired then db1 else some s
      let finalSubscription :=
        if academiaOverlayPred (some s) user then some (academiaOverride s)
        else updatedSubscription
      Except.ok (db1, finalSubscription)

/-- Modelled from the spec for comparison (§4.7/§4.6 of the spec text, not
the source): the overlay is "applied after the Expiry Sweeper's lazy
check" and evaluated against the re-read, post-sweep record, which is also
the base of the shallow-overridden copy. -/
def meHandlerSpecOverlay (db : Option SubscriptionRow)
    (user : AuthenticatedUser) (now : Int) (sweepFails : Bool) :
    Except Unit (Option SubscriptionRow × Option SubscriptionRow) :=
  match db with
  | Option.none =>
    let finalSubscription :=
      if academiaOverlayPred Option.none user then
        some (academiaFabricated user.id now)
      else Option.none
    Except.ok (Option.none, finalSubscription)
  | some s =>
    match expireSubscriptionIfNeeded db s now sweepFails with
    | Except.error e => Except.error e
    | Except.ok (db1, wasExpired) =>
      let updatedSubscription := if wasExpired then db1 else some s
      let finalSubscription :=
        if academiaOverlayPred updatedSubscription user then
          match updatedSubscription with
          | Option.none => some (academiaFabricated user.id now)
          | some s2 => some (academiaOverride s2)
        else updatedSubscription
      Except.ok (db1, finalSubscription)

/-- C6: the entitlement overlay never mutates storage — after an
overlay-affected read the stored record is exactly the post-sweep
(pre-overlay) state — and when a record exists the response is a copy of
the fetched record in which exactly `status`, `plan_id` and
`current_period_end` are replaced by `active`, `"academia"` and `null`,
every other field carried over unchanged. -/
theorem meOverlay_never_persists (db : Option SubscriptionRow)
    (user : AuthenticatedUser) (now : Int) (r : SubscriptionRow)
    (hdb : db = some r) (hns : r.status ≠ LocalStatus.active)
    (hem : user.email ≠ "") (hac : isAcademiaEmail user.email = true) :
    meHandler db user now false =
      Except.ok
        ((if shouldExpireSubscription r now then some (expireRow r now) else some r),
         some (academiaOverride r)) := by
  subst hdb
  by_cases hexp : shouldExpireSubscription r now <;>
    simp [meHandler, expireSubscriptionIfNeeded, academiaOverlayPred, hexp,
      hns, hem, hac]

/-- C6 at a concrete input: a canceled record of an academic-domain user is
returned overridden, storage untouched. -/
theorem meOverlay_never_persists_witness :
    meHandler (some { user_id := "u1", status := LocalStatus.canceled })
      { id := "u1", email := "a@tamabi.ac.jp" } 3 false =
      Except.ok
        ((if shouldExpireSubscription { user_id := "u1", status := LocalStatus.canceled } 3
            then some (expireRow { user_id := "u1", status := LocalStatus.canceled } 3)
            else some { user_id := "u1", status := LocalStatus.canceled }),
         some (academiaOverride { user_id := "u1", status := LocalStatus.canceled })) :=
  meOverlay_never_persists _ _ _ _ rfl (by decide) (by decide) (by decide)

/-- C7 as stated is false: with a record `active`, flagged
`cancel_at_period_end`, period end in the past and an academic-domain
caller, the lazy sweep cancels the row during the request, yet the code
evaluates the overlay against the originally fetched (pre-sweep) record,
so the response carries the canceled row while the spec's post-sweep
overlay would report an `active` academia view. -/
theorem meHandler_presweep_counterexample :
    (meHandler
        (some { user_id := "u1", status := LocalStatus.active, current_period_end := some 5, cancel_at_period_end := some true })
        { id := "u1", email := "student@tcu.ac.jp" } 10 false).toOption ≠
      (meHandlerSpecOverlay
        (some { user_id := "u1", status := LocalStatus.active, current_period_end := some 5, cancel_at_period_end := some true })
        { id := "u1", email := "student@tcu.ac.jp" } 10 false).toOption := by
  decide

/-- C7 amended: in the `/me` read the overlay is applied after the lazy
sweep (the stored state is the swept one), but its predicate and the base
of the overridden copy are the record as originally fetched, not the
re-read record; when the predicate does not hold the response carries the
possibly expiry-swept record unchanged. -/
theorem meHandler_overlay_order (db : Option SubscriptionRow)
    (user : AuthenticatedUser) (now : Int) (r : SubscriptionRow)
    (hdb : db = some r) :
    meHandler db user now false =
      Except.ok
        ((if shouldExpireSubscription r now then some (expireRow r now) else some r),
         (if academiaOverlayPred (some r) user then some (academiaOverride r)
          else if shouldExpireSubscription r now then some (expireRow r now)
          else some r)) := by
  subst hdb
  by_cases hexp : shouldExpireSubscription r now <;>
    by_cases hpred : academiaOverlayPred (some r) user <;>
      simp [meHandler, expireSubscriptionIfNeeded, hexp, hpred]

/-- C7 amended, at a concrete input: an expired trial of a non-academic
caller is swept and returned as the canceled record. -/
theorem meHandler_overlay_order_witness :
    meHandler (some { user_id := "u2", status := LocalStatus.trialing, current_period_end := some 5 })
      { id := "u2", email := "x@example.com" } 10 false =
      Except.ok
        ((if shouldExpireSubscription { user_id := "u2", status := LocalStatus.trialing, current_period_end := some 5 } 10
            then some (expireRow { user_id := "u2", status := LocalStatus.trialing, current_period_end := some 5 } 10)
            else some { user_id := "u2", status := LocalStatus.trialing, current_period_end := some 5 }),
         (if academiaOverlayPred (some { user_id := "u2", status := LocalStatus.trialing, current_period_end := some 5 }) { id := "u2", email := "x@example.com" }
            then some (academiaOverride { user_id := "u2", status := LocalStatus.trialing, current_period_end := some 5 })
          else if shouldExpireSubscription { user_id := "u2", status := LocalStatus.trialing, current_period_end := some 5 } 10
            then some (expireRow { user_id := "u2", status := LocalStatus.trialing, current_period_end := some 5 } 10)
          else some { user_id := "u2", status := LocalStatus.trialing, current_period_end := some 5 })) :=
  meHandler_overlay_order _ _ _ _ rfl

/-- The slice of a Stripe subscription object the handlers read
(`Stripe.Subscription` fields used in `api/_lib/webhook-handlers.ts`). -/
structure StripeSubscriptionObj where
  id : String
  customer : Option String
  status : Option String
  metadata_user_id : Option String
  current_period_end : Option Int
  cancel_at_period_end : Bool
  items_first_price_id : Option String
deriving DecidableEq, Repr

/-- The slice of a Stripe customer object the resolver reads
(`customer.metadata.user_id`). -/
structure StripeCustomerObj where
  metadata_user_id : Option String
deriving DecidableEq, Repr

/-- `getUserIdFromCustomer` (`api/_lib/webhook-helpers.ts`): the
subscription's metadata tag wins when truthy; without a truthy customer
reference the resolver gives up; otherwise the customer record is fetched
(`customerFetch`), a thrown fetch error being caught and turned into
`null`.  The boolean reports whether the customer fetch was performed. -/
def getUserIdFromCustomer (customerId : Option String)
    (subscription : Option StripeSubscriptionObj)
    (customerFetch : Except Unit StripeCustomerObj) : Option String × Bool :=
  if jsTruthyStr (subscription.bind (·.metadata_user_id)) then
    (subscription.bind (·.metadata_user_id), false)
  else if !jsTruthyStr customerId then
    (Option.none, false)
  else
    match customerFetch with
    | Except.ok customer => (customer.metadata_user_id, true)
    | Except.error _ => (Option.none, true)

/-- C8: a truthy `user_id` in the subscription's metadata is returned
immediately with no customer fetch — whatever customer reference is
supplied and whatever its metadata would say — and whenever the customer
fetch is performed and fails the resolver returns `null` instead of
propagating the exception (its result type is total). -/
theorem getUserIdFromCustomer_priority :
    (∀ (customerId : Option String) (sub : StripeSubscriptionObj)
        (customerFetch : Except Unit StripeCustomerObj),
      jsTruthyStr sub.metadata_user_id = true →
      getUserIdFromCustomer customerId (some sub) customerFetch =
        (sub.metadata_user_id, false)) ∧
    (∀ (customerId : Option String) (sub : Option StripeSubscriptionObj),
      (getUserIdFromCustomer customerId sub (Except.error ())).2 = true →
      (getUserIdFromCustomer customerId sub (Except.error ())).1 = Option.none) := by
  constructor
  · intro customerId sub customerFetch h
    simp [getUserIdFromCustomer, h]
  · intro customerId sub h
    by_cases h1 : jsTruthyStr (sub.bind (·.metadata_user_id)) <;>
      by_cases h2 : jsTruthyStr customerId <;>
        simp_all [getUserIdFromCustomer]

/-- `checkSubscription` (`api/_lib/subscription.ts`): a point query for
the caller's row restricted to `status in (active, trialing)`
(`maybeSingle`); a hit grants access, otherwise a truthy academic-domain
e-mail grants access, otherwise access is denied. -/
def checkSubscription (db : Option SubscriptionRow)
    (user : AuthenticatedUser) : Bool :=
  let subscription :=
    match db with
    | some r =>
      if r.status = LocalStatus.active ∨ r.status = LocalStatus.trialing
        then some r else Option.none
    | Option.none => Option.none
  if subscription.isSome then true
  else if user.email != "" && isAcademiaEmail user.email then true
  else false

/-- C10: the project endpoints' subscription gate grants access exactly
when the stored status is `active` or `trialing` or the caller's e-mail
ends with one of the three academia domains — in particular an
academia-domain user with no record or a canceled record is granted, and a
trialing user is granted on the database row alone. -/
theorem checkSubscription_iff :
    ∀ (db : Option SubscriptionRow) (user : AuthenticatedUser),
      checkSubscription db user = true ↔
        ((∃ r, db = some r ∧
            (r.status = LocalStatus.active ∨ r.status = LocalStatus.trialing)) ∨
          ∃ domain ∈ ACADEMIA_DOMAINS, jsEndsWith user.email domain = true) := by
  intro db user
  have hempty : ¬ ∃ domain ∈ ACADEMIA_DOMAINS, jsEndsWith "" domain = true := by decide
  by_cases he : user.email = ""
  · rcases db with _ | r
    · simp [checkSubscription, he, hempty]
    · by_cases hs : r.status = LocalStatus.active ∨ r.status = LocalStatus.trialing <;>
        simp [checkSubscription, he, hempty, hs]
  · rcases db with _ | r
    · simp [checkSubscription, isAcademiaEmail, he, List.any_eq_true]
    · by_cases hs : r.status = LocalStatus.active ∨ r.status = LocalStatus.trialing <;>
        simp [checkSubscription, isAcademiaEmail, he, hs, List.any_eq_true]

/-- The environment of one checkout-session request
(`api/billing-create-checkout-session.ts`): outcomes of the storage and
provider calls the handler may make. -/
structure CheckoutEnv where
  selectFails : Bool
  customerCreateFails : Bool
  createdCustomerId : String
  insertFails : Bool
  updateFails : Bool
  sessionCreateFails : Bool
  sessionUrl : Option String
deriving DecidableEq, Repr

/-- What one checkout-session request leaves behind
(`api/billing-create-checkout-session.ts`): the stored row, the HTTP
status, the JSON body fields, and how many provider objects were
created. -/
structure CheckoutOutcome where
  db : Option SubscriptionRow
  status : Nat
  body_error : Option String
  body_url : Option String
  body_redirect_url : Option String
  sessionsCreated : Nat
  customersCreated : Nat
deriving DecidableEq, Repr

/-- The checkout-session builder
(`api/billing-create-checkout-session.ts`, `handler`, POST path): 401
without a user; 500 on the record select failing; just-in-time customer
creation (insert or update of `stripe_customer_id`) when the stored
reference is falsy; then unconditionally a provider checkout session,
200 `{url}` on success and a caught 500 otherwise. -/
def checkoutHandler (db : Option SubscriptionRow)
    (user : Option AuthenticatedUser) (env : CheckoutEnv) (now : Int) :
    CheckoutOutcome :=
  match user with
  | Option.none =>
    { db := db, status := 401, body_error := some "not_authenticated",
      body_url := Option.none, body_redirect_url := Option.none,
      sessionsCreated := 0, customersCreated := 0 }
  | some user =>
    if env.selectFails then
      { db := db, status := 500, body_error := some "subscriptions_select_failed",
        body_url := Option.none, body_redirect_url := Option.none,
        sessionsCreated := 0, customersCreated := 0 }
    else
      let sub := db
      let stripeCustomerId := sub.bind (·.stripe_customer_id)
      if !jsTruthyStr stripeCustomerId then
        if env.customerCreateFails then
          { db := db, status := 500, body_error := some "customer_create_failed",
            body_url := Option.none, body_redirect_url := Option.none,
            sessionsCreated := 0, customersCreated := 0 }
        else
          let createdId := env.createdCustomerId
          match sub with
          | Option.none =>
            if env.insertFails then
              { db := db, status := 500,
                body_error := some "subscriptions_insert_failed",
                body_url := Option.none, body_redirect_url := Option.none,
                sessionsCreated := 0, customersCreated := 1 }
            else
              let db1 : Option SubscriptionRow := some
                { user_id := user.id
                  stripe_customer_id := some createdId
                  status := LocalStatus.none
                  created_at := now
                  updated_at := now }
              if env.sessionCreateFails then
                { db := db1, status := 500, body_error := some "session_create_failed",
                  body_url := Option.none, body_redirect_url := Option.none,
                  sessionsCreated := 0, customersCreated := 1 }
              else
                { db := db1, status := 200, body_error := Option.none,
                  body_url := env.sessionUrl, body_redirect_url := Option.none,
                  sessionsCreated := 1, customersCreated := 1 }
          | some s =>
            if env.updateFails then
              { db := db, status := 500,
                body_error := some "subscriptions_update_failed",
                body_url := Option.none, body_redirect_url := Option.none,
                sessionsCreated := 0, customersCreated := 1 }
            else
              let db1 : Option SubscriptionRow := some
                { s with stripe_customer_id := some createdId, updated_at := now }
              if env.sessionCreateFails then
                { db := db1, status := 500, body_error := some "session_create_failed",
                  body_url := Option.none, body_redirect_url := Option.none,
                  sessionsCreated := 0, customersCreated := 1 }
              else
                { db := db1, status := 200, body_error := Option.none,
                  body_url := env.sessionUrl, body_redirect_url := Option.none,
                  sessionsCreated := 1, customersCreated := 1 }
      else
        if env.sessionCreateFails then
          { db := db, status := 500, body_error := some "session_create_failed",
            body_url := Option.none, body_redirect_url := Option.none,
            sessionsCreated := 0, customersCreated := 0 }
        else
          { db := db, status := 200, body_error := Option.none,
            body_url := env.sessionUrl, body_redirect_url := Option.none,
            sessionsCreated := 1, customersCreated := 0 }

/-- C1 fails on the code: an authenticated user whose stored record is
`active` (with a customer reference) gets a fresh provider checkout
session and a plain `{url}` response — no "already subscribed" signal and
no redirect target — although the repository's README and the
`CheckoutSessionResponse` type document the short-circuit. -/
theorem checkoutHandler_active_creates_session :
    checkoutHandler
      (some { user_id := "u1", stripe_customer_id := some "cus_1", status := LocalStatus.active })
      (some { id := "u1", email := "e@example.com" })
      { selectFails := false
        customerCreateFails := false
        createdCustomerId := "cus_new"
        insertFails := false
        updateFails := false
        sessionCreateFails := false
        sessionUrl := some "https://checkout.stripe.example/s1" } 4 =
      { db := some { user_id := "u1", stripe_customer_id := some "cus_1", status := LocalStatus.active }
        status := 200
        body_error := Option.none
        body_url := some "https://checkout.stripe.example/s1"
        body_redirect_url := Option.none
        sessionsCreated := 1
        customersCreated := 0 } := by
  decide

/-- JavaScript `a ?? b` on `string | null | undefined` values (only
null/undefined fall through, the empty string does not). -/
def jsOrElse (a b : Option String) : Option String :=
  match a with
  | some v => some v
  | Option.none => b

/-- The slice of a Stripe checkout session the handler reads
(`metadata.user_id`, `customer`, `subscription`, optional line items). -/
structure CheckoutSessionObj where
  metadata_user_id : Option String
  customer : Option String
  subscription : Option String
  line_items_first_price_id : Option String
deriving DecidableEq, Repr

/-- The best-effort `stripe.subscriptions.retrieve` pattern shared by the
checkout-completed and invoice handlers: only attempted for a truthy
reference, and a thrown fetch error is caught, leaving no subscription. -/
def fetchedSubscription (subscriptionId : Option String)
    (subFetch : Except Unit StripeSubscriptionObj) :
    Option StripeSubscriptionObj :=
  if jsTruthyStr subscriptionId then
    match subFetch with
    | Except.ok s => some s
    | Except.error _ => Option.none
  else Option.none

/-- The `currentPeriodEnd` variable of the handlers:
`toIso(sub.current_period_end) ?? undefined` (`string | undefined`). -/
def periodEndParam (fetched : Option StripeSubscriptionObj) :
    Option (Option Int) :=
  match fetched with
  | some s =>
    match toIso s.current_period_end with
    | some t => some (some t)
    | Option.none => Option.none
  | Option.none => Option.none

/-- `handleCheckoutCompleted` (`api/_lib/webhook-handlers.ts`): returns
silently without truthy `metadata.user_id` and `customer`; provisional
`active` patch when the subscription fetch is skipped or fails; the upsert
is wrapped in its own try/catch whose handler only logs, so an upsert
failure never escapes this handler. -/
def handleCheckoutCompleted (session : CheckoutSessionObj)
    (subFetch : Except Unit StripeSubscriptionObj) (catalog : List PlanRow)
    (planLookupFails : Bool) (db : Option SubscriptionRow) (upsertFails : Bool)
    (now : Int) : Except Unit (Option SubscriptionRow) :=
  let userId := session.metadata_user_id
  let customerId := session.customer
  let subscriptionId := session.subscription
  if !jsTruthyStr userId || !jsTruthyStr customerId then Except.ok db
  else
    let fetched := fetchedSubscription subscriptionId subFetch
    let status :=
      match fetched with
      | some s => mapStripeStatus s.status
      | Option.none => mapStripeStatus (some "active")
    let cancelAtPeriodEnd : Option Bool :=
      match fetched with
      | some s => some s.cancel_at_period_end
      | Option.none => some false
    let planId : Option String :=
      match fetched with
      | some s =>
        resolvePlanId catalog
          (jsOrElse s.items_first_price_id session.line_items_first_price_id)
          planLookupFails
      | Option.none => Option.none
    let params : UpsertParams :=
      { userId := userId.getD ""
        customerId := some customerId
        subscriptionId := some subscriptionId
        status := some status
        currentPeriodEnd := periodEndParam fetched
        cancelAtPeriodEnd := some cancelAtPeriodEnd
        planId := liftPlanParam planId }
    match upsertSubscription params now db upsertFails with
    | Except.ok db1 => Except.ok db1
    | Except.error _ => Except.ok db

/-- `handleSubscriptionUpdated` (`api/_lib/webhook-handlers.ts`): resolves
the user, re-derives every field from the event's embedded subscription
object and upserts; an upsert failure propagates. -/
def handleSubscriptionUpdated (sub : StripeSubscriptionObj)
    (customerFetch : Except Unit StripeCustomerObj) (catalog : List PlanRow)
    (planLookupFails : Bool) (db : Option SubscriptionRow) (upsertFails : Bool)
    (now : Int) : Except Unit (Option SubscriptionRow) :=
  let customerId := sub.customer
  let userId := (getUserIdFromCustomer customerId (some sub) customerFetch).1
  if !jsTruthyStr userId then Except.ok db
  else
    upsertSubscription
      { userId := userId.getD ""
        customerId := some customerId
        subscriptionId := some (some sub.id)
        status := some (mapStripeStatus sub.status)
        currentPeriodEnd := periodEndParam (some sub)
        cancelAtPeriodEnd := some (some sub.cancel_at_period_end)
        planId := liftPlanParam
          (resolvePlanId catalog sub.items_first_price_id planLookupFails) }
      now db upsertFails

/-- `handleSubscriptionDeleted` (`api/_lib/webhook-handlers.ts`): like the
update handler, with the provider status defaulting to `canceled`
(`subscription.status ?? "canceled"`); subscription id and period end are
written from the event object, not cleared. -/
def handleSubscriptionDeleted (sub : StripeSubscriptionObj)
    (customerFetch : Except Unit StripeCustomerObj) (catalog : List PlanRow)
    (planLookupFails : Bool) (db : Option SubscriptionRow) (upsertFails : Bool)
    (now : Int) : Except Unit (Option SubscriptionRow) :=
  let customerId := sub.customer
  let userId := (getUserIdFromCustomer customerId (some sub) customerFetch).1
  if !jsTruthyStr userId then Except.ok db
  else
    upsertSubscription
      { userId := userId.getD ""
        customerId := some customerId
        subscriptionId := some (some sub.id)
        status := some (mapStripeStatus (some (sub.status.getD "canceled")))
        currentPeriodEnd := periodEndParam (some sub)
        cancelAtPeriodEnd := some (some sub.cancel_at_period_end)
        planId := liftPlanParam
          (resolvePlanId catalog sub.items_first_price_id planLookupFails) }
      now db upsertFails

/-- The slice of a Stripe invoice the invoice handlers read. -/
structure InvoiceObj where
  subscription : Option String
  customer : Option String
  lines_first_price_id : Option String
deriving DecidableEq, Repr

/-- `handleInvoicePaymentSucceeded` (`api/_lib/webhook-handlers.ts`):
best-effort subscription fetch, status from the fetched subscription or
`active`, price falling back from the invoice line to the subscription
item; an upsert failure propagates. -/
def handleInvoicePaymentSucceeded (inv : InvoiceObj)
    (subFetch : Except Unit StripeSubscriptionObj)
    (customerFetch : Except Unit StripeCustomerObj) (catalog : List PlanRow)
    (planLookupFails : Bool) (db : Option SubscriptionRow) (upsertFails : Bool)
    (now : Int) : Except Unit (Option SubscriptionRow) :=
  let subscriptionId := inv.subscription
  let customerId := inv.customer
  let fetched := fetchedSubscription subscriptionId subFetch
  let userId := (getUserIdFromCustomer customerId fetched customerFetch).1
  if !jsTruthyStr userId then Except.ok db
  else
    let status :=
      match fetched with
      | some s => mapStripeStatus s.status
      | Option.none => mapStripeStatus (some "active")
    let cancelAtPeriodEnd :=
      match fetched with
      | some s => s.cancel_at_period_end
      | Option.none => false
    let priceId :=
      jsOrElse inv.lines_first_price_id (fetched.bind (·.items_first_price_id))
    upsertSubscription
      { userId := userId.getD ""
        customerId := some customerId
        subscriptionId := some subscriptionId
        status := some status
        currentPeriodEnd := periodEndParam fetched
        cancelAtPeriodEnd := some (some cancelAtPeriodEnd)
        planId := liftPlanParam (resolvePlanId catalog priceId planLookupFails) }
      now db upsertFails

/-- `handleInvoicePaymentFailed` (`api/_lib/webhook-handlers.ts`): as for
payment success, with the status defaulting to `past_due`; an upsert
failure propagates. -/
def handleInvoicePaymentFailed (inv : InvoiceObj)
    (subFetch : Except Unit StripeSubscriptionObj)
    (customerFetch : Except Unit StripeCustomerObj) (catalog : List PlanRow)
    (planLookupFails : Bool) (db : Option SubscriptionRow) (upsertFails : Bool)
    (now : Int) : Except Unit (Option SubscriptionRow) :=
  let subscriptionId := inv.subscription
  let customerId := inv.customer
  let fetched := fetchedSubscription subscriptionId subFetch
  let userId := (getUserIdFromCustomer customerId fetched customerFetch).1
  if !jsTruthyStr userId then Except.ok db
  else
    let status :=
      match fetched with
      | some s => mapStripeStatus (some (s.status.getD "past_due"))
      | Option.none => mapStripeStatus (some "past_due")
    let cancelAtPeriodEnd :=
      match fetched with
      | some s => s.cancel_at_period_end
      | Option.none => false
    let priceId :=
      jsOrElse inv.lines_first_price_id (fetched.bind (·.items_first_price_id))
    upsertSubscription
      { userId := userId.getD ""
        customerId := some customerId
        subscriptionId := some subscriptionId
        status := some status
        currentPeriodEnd := periodEndParam fetched
        cancelAtPeriodEnd := some (some cancelAtPeriodEnd)
        planId := liftPlanParam (resolvePlanId catalog priceId planLookupFails) }
      now db upsertFails

/-- One verified inbound webhook event of a handled kind, bundled with the
outcomes of the provider fetches its handler may perform. -/
inductive WebhookEvent where
  | checkoutCompleted (session : CheckoutSessionObj)
      (subFetch : Except Unit StripeSubscriptionObj)
  | subscriptionUpdated (sub : StripeSubscriptionObj)
      (customerFetch : Except Unit StripeCustomerObj)
  | subscriptionDeleted (sub : StripeSubscriptionObj)
      (customerFetch : Except Unit StripeCustomerObj)
  | invoicePaymentSucceeded (inv : InvoiceObj)
      (subFetch : Except Unit StripeSubscriptionObj)
      (customerFetch : Except Unit StripeCustomerObj)
  | invoicePaymentFailed (inv : InvoiceObj)
      (subFetch : Except Unit StripeSubscriptionObj)
      (customerFetch : Except Unit StripeCustomerObj)

/-- The `switch (event.type)` dispatch of the webhook endpoint
(`api/stripe-webhook.ts`, the variant delegating to
`api/_lib/webhook-handlers.ts`). -/
def runWebhookEvent (ev : WebhookEvent) (catalog : List PlanRow)
    (planLookupFails : Bool) (db : Option SubscriptionRow) (upsertFails : Bool)
    (now : Int) : Except Unit (Option SubscriptionRow) :=
  match ev with
  | WebhookEvent.checkoutCompleted session subFetch =>
    handleCheckoutCompleted session subFetch catalog planLookupFails db upsertFails now
  | WebhookEvent.subscriptionUpdated sub customerFetch =>
    handleSubscriptionUpdated sub customerFetch catalog planLookupFails db upsertFails now
  | WebhookEvent.subscriptionDeleted sub customerFetch =>
    handleSubscriptionDeleted sub customerFetch catalog planLookupFails db upsertFails now
  | WebhookEvent.invoicePaymentSucceeded inv subFetch customerFetch =>
    handleInvoicePaymentSucceeded inv subFetch customerFetch catalog planLookupFails db upsertFails now
  | WebhookEvent.invoicePaymentFailed inv subFetch customerFetch =>
    handleInvoicePaymentFailed inv subFetch customerFetch catalog planLookupFails db upsertFails now

/-- The webhook endpoint's response to a verified event: 200 `ok` when the
dispatched handler returns, 500 `internal_webhook_error` when it throws
(the outer try/catch of the endpoint). -/
def stripeWebhookHandler (ev : WebhookEvent) (catalog : List PlanRow)
    (planLookupFails : Bool) (db : Option SubscriptionRow) (upsertFails : Bool)
    (now : Int) : Nat × Option SubscriptionRow :=
  match runWebhookEvent ev catalog planLookupFails db upsertFails now with
  | Except.ok db1 => (200, db1)
  | Except.error _ => (500, db)

/-- C2 as stated is false for `checkout.session.completed`: here a
resolvable event (truthy `metadata.user_id` and `customer`) whose
subscription upsert fails (the upsert-failure flag is set, so the storage
layer throws) still makes the webhook endpoint respond 200 with the store
unchanged — `handleCheckoutCompleted` catches the failure and only logs
it, so no 5xx reaches the provider and no retry happens. -/
theorem webhookCheckout_swallows_upsert_failure :
    stripeWebhookHandler
      (WebhookEvent.checkoutCompleted
        { metadata_user_id := some "u1"
          customer := some "cus_1"
          subscription := some "sub_1"
          line_items_first_price_id := Option.none }
        (Except.error ()))
      [] false Option.none true 8 = (200, Option.none) := by
  decide

/-- C2 amended: an upsert failure propagates out of the event handler and
makes the webhook endpoint respond 500 for the subscription-updated,
subscription-deleted and both invoice event kinds (whenever the handler
reaches its upsert, i.e. the user id resolves), but not for
`checkout.session.completed`, whose handler catches the failure, logs it
and lets the endpoint acknowledge with 200. -/
theorem webhook_upsert_failure_propagation :
    (∀ (sub : StripeSubscriptionObj) (customerFetch : Except Unit StripeCustomerObj)
        (catalog : List PlanRow) (planLookupFails : Bool)
        (db : Option SubscriptionRow) (now : Int),
      jsTruthyStr (getUserIdFromCustomer sub.customer (some sub) customerFetch).1 = true →
      stripeWebhookHandler (WebhookEvent.subscriptionUpdated sub customerFetch)
        catalog planLookupFails db true now = (500, db)) ∧
    (∀ (sub : StripeSubscriptionObj) (customerFetch : Except Unit StripeCustomerObj)
        (catalog : List PlanRow) (planLookupFails : Bool)
        (db : Option SubscriptionRow) (now : Int),
      jsTruthyStr (getUserIdFromCustomer sub.customer (some sub) customerFetch).1 = true →
      stripeWebhookHandler (WebhookEvent.subscriptionDeleted sub customerFetch)
        catalog planLookupFails db true now = (500, db)) ∧
    (∀ (inv : InvoiceObj) (subFetch : Except Unit StripeSubscriptionObj)
        (customerFetch : Except Unit StripeCustomerObj) (catalog : List PlanRow)
        (planLookupFails : Bool) (db : Option SubscriptionRow) (now : Int),
      jsTruthyStr (getUserIdFromCustomer inv.customer
        (fetchedSubscription inv.subscription subFetch) customerFetch).1 = true →
      stripeWebhookHandler (WebhookEvent.invoicePaymentSucceeded inv subFetch customerFetch)
        catalog planLookupFails db true now = (500, db)) ∧
    (∀ (inv : InvoiceObj) (subFetch : Except Unit StripeSubscriptionObj)
        (customerFetch : Except Unit StripeCustomerObj) (catalog : List PlanRow)
        (planLookupFails : Bool) (db : Option SubscriptionRow) (now : Int),
      jsTruthyStr (getUserIdFromCustomer inv.customer
        (fetchedSubscription inv.subscription subFetch) customerFetch).1 = true →
      stripeWebhookHandler (WebhookEvent.invoicePaymentFailed inv subFetch customerFetch)
        catalog planLookupFails db true now = (500, db)) ∧
    (∀ (session : CheckoutSessionObj) (subFetch : Except Unit StripeSubscriptionObj)
        (catalog : List PlanRow) (planLookupFails : Bool)
        (db : Option SubscriptionRow) (now : Int),
      jsTruthyStr session.metadata_user_id = true →
      jsTruthyStr session.customer = true →
      stripeWebhookHandler (WebhookEvent.checkoutCompleted session subFetch)
        catalog planLookupFails db true now = (200, db)) := by
  refine ⟨?_, ?_, ?_, ?_, ?_⟩
  · intro sub customerFetch catalog planLookupFails db now h
    simp [stripeWebhookHandler, runWebhookEvent, handleSubscriptionUpdated, h,
      upsertSubscription]
  · intro sub customerFetch catalog planLookupFails db now h
    simp [stripeWebhookHandler, runWebhookEvent, handleSubscriptionDeleted, h,
      upsertSubscription]
  · intro inv subFetch customerFetch catalog planLookupFails db now h
    simp [stripeWebhookHandler, runWebhookEvent, handleInvoicePaymentSucceeded, h,
      upsertSubscription]
  · intro inv subFetch customerFetch catalog planLookupFails db now h
    simp [stripeWebhookHandler, runWebhookEvent, handleInvoicePaymentFailed, h,
      upsertSubscription]
  · intro session subFetch catalog planLookupFails db now h1 h2
    simp [stripeWebhookHandler, runWebhookEvent, handleCheckoutCompleted, h1, h2,
      upsertSubscription]
